import Mathlib

/-!
Shallow embedding of the test-attempt lifecycle core of the VIBE Smart
Interviewer backend (`backend/app/api/tests.py`): eligibility evaluation
(`get_test_availability`), attempt materialization (`start_test_attempt`),
incremental answer submission (`submit_attempt_answer`) and finalization
(`complete_attempt`), over an explicit database state.

Conventions of the embedding:
* JSON scalar values flowing through configuration/assignment payloads are
  modelled by `PyVal` (Python `None`/`int`/`str`/`bool`); list-valued fields
  appear where the code inspects them (`IdsVal`).
* A dictionary `.get(key)` that can see an absent key or a JSON `null` returns
  Python `None` in both cases, so such fields are modelled directly as `PyVal`
  with `PyVal.vnone` standing for absent-or-null.
* SQLAlchemy sessions are modelled by an explicit `DB` record; `commit` is a
  functional update.  `uuid.uuid4()` is modelled by a fresh-name counter,
  `datetime.utcnow()` by an abstract `Nat` clock passed to each operation.
* The module-level configuration cache has a pure read-through behaviour here:
  no modelled operation mutates `Configuration` rows, so a cache hit and the
  underlying query return the same row and `_get_config` is modelled as the
  query itself.
* `HTTPException` and unhandled `TypeError`s (which the web framework turns
  into a server error) are modelled as the error branch of `Except`.
-/

namespace Vibe

/-- Python scalar value as found in the JSON payloads the core inspects.
`vnone` doubles for an absent dictionary key, matching `dict.get`. -/
inductive PyVal where
  | vnone
  | vint (n : Int)
  | vstr (s : String)
  | vbool (b : Bool)
deriving Repr, DecidableEq, Inhabited

/-- Python truthiness of a scalar value. -/
def truthy : PyVal → Bool
  | .vnone => false
  | .vint n => n != 0
  | .vstr s => s ≠ ""
  | .vbool b => b

/-- Python `str(...)` on a scalar value. -/
def pyStr : PyVal → String
  | .vnone => "None"
  | .vint n => toString n
  | .vstr s => s
  | .vbool b => if b then "True" else "False"

/-- `str(d.get(k))` where the key may be absent (Python `None`). -/
def pyStrOpt (o : Option PyVal) : String := pyStr (o.getD .vnone)

/-- Decimal digit run to a number; `Option.none` on empty or non-digit input. -/
def digitsToNat (cs : List Char) : Option Nat :=
  if cs ≠ [] ∧ cs.all Char.isDigit then
    some (cs.foldl (fun a c => a * 10 + (c.toNat - 48)) 0)
  else Option.none

/-- Python `int(...)` on a decimal string (optional sign); `Option.none` models
`ValueError`.  Exotic accepted forms (whitespace, underscores) are not
exercised by the configurations under study and are treated as failures. -/
def parseIntPy (s : String) : Option Int :=
  match s.data with
  | '-' :: cs => (digitsToNat cs).map (fun n => -(n : Int))
  | '+' :: cs => (digitsToNat cs).map (fun n => (n : Int))
  | cs => (digitsToNat cs).map (fun n => (n : Int))

/-- Python `int(v)`; `Option.none` models the raised `TypeError`/`ValueError`. -/
def pyInt? : PyVal → Option Int
  | .vint n => some n
  | .vbool b => some (if b then 1 else 0)
  | .vstr s => parseIntPy s
  | .vnone => Option.none

/-- Python `str.upper()` (ASCII inputs in this core). -/
def pyUpper (s : String) : String := ⟨s.data.map Char.toUpper⟩

/-- Python `str.lower()` (ASCII inputs in this core). -/
def pyLower (s : String) : String := ⟨s.data.map Char.toLower⟩

/-- Truthiness of a nullable string column (`if tenant_id:`). -/
def strTruthy : Option String → Bool
  | some s => s ≠ ""
  | Option.none => false

/-- Python list slice `xs[:n]` for an `int` bound `n` (negative counts from
the end, over-long bounds are clamped). -/
def pySlice {α : Type} (xs : List α) (n : Int) : List α :=
  xs.take (if n < 0 then ((xs.length : Int) + n).toNat else n.toNat)

/-! ## Data model (`backend/app/models.py`) -/

/-- One SJT scenario dictionary from `config_data['scenarios']`.
`id` is `sc.get('id')` (`Option.none` = key absent); `body` carries the other
dictionary entries, which the core serves untouched. -/
structure Scenario where
  id : Option PyVal := Option.none
  body : List (String × PyVal) := []
deriving Repr, DecidableEq, Inhabited

/-- One JDT question dictionary inside a role bucket. -/
structure JdtQuestion where
  text : Option PyVal := Option.none
  preferredAnswer : Option PyVal := Option.none
  competency : Option PyVal := Option.none
deriving Repr, DecidableEq, Inhabited

/-- One JDT role bucket from `config_data['roles']`. -/
structure Role where
  roleName : Option PyVal := Option.none
  questions : List JdtQuestion := []
deriving Repr, DecidableEq, Inhabited

/-- Truthiness of a role dictionary (`if not selected_role`): a JSON dict is
truthy when non-empty; the two keys the core reads are tracked. -/
def roleTruthy (r : Role) : Bool := r.roleName.isSome || !r.questions.isEmpty

/-- The `settings` dictionary of a configuration.  Each field is the value
`settings.get(key)` would see, with `vnone` for absent-or-null. -/
structure Settings where
  numberOfQuestions : PyVal := .vnone
  followUpCount : PyVal := .vnone
  aiGeneratedQuestions : PyVal := .vnone
  aiQuestions : PyVal := .vnone
deriving Repr, DecidableEq, Inhabited

/-- `config_data` JSON of a configuration row.  `scenarios`/`roles`/`settings`
reflect `config_data.get(key) or default` with the list/dict shapes the core
iterates over. -/
structure ConfigData where
  scenarios : List Scenario := []
  roles : List Role := []
  settings : Settings := {}
deriving Repr, DecidableEq, Inhabited

/-- A `configurations` row (fields the core reads). -/
structure Configuration where
  id : String
  config_type : String
  scope : String := "tenant"
  tenant_id : Option String := Option.none
  version : Int := 1
  is_active : Bool := true
  created_at : Nat := 0
  config_data : ConfigData := {}
deriving Repr, DecidableEq

/-- The value stored under `custom_config['sjt_scenario_ids']`: either a JSON
list or some non-list scalar (which the code discards). -/
inductive IdsVal where
  | scalar (v : PyVal)
  | list (xs : List PyVal)
deriving Repr, DecidableEq

/-- An assignment's `custom_config` JSON dictionary.  `sjt_scenario_ids` is
the raw value under that key (`Option.none` = key absent; `scalar .vnone` =
key present with `null`); `extraKeys` records whether the dictionary has any
other key (this only affects Python truthiness of the dict). -/
structure CustomConfig where
  sjt_scenario_ids : Option IdsVal := Option.none
  extraKeys : Bool := false
deriving Repr, DecidableEq

/-- Truthiness of `assignment.custom_config` (a nullable JSON dict column). -/
def customTruthy : Option CustomConfig → Bool
  | Option.none => false
  | some cc => cc.extraKeys || cc.sjt_scenario_ids.isSome

/-- `(assignment.custom_config or {}).get('sjt_scenario_ids')`; the result
`Option.none` is Python `None` (absent key, null value, or no dict). -/
def ccGetIds : Option CustomConfig → Option IdsVal
  | Option.none => Option.none
  | some cc =>
    match cc.sjt_scenario_ids with
    | some (.scalar .vnone) => Option.none
    | x => x

/-- Python truthiness of a `sjt_scenario_ids` value. -/
def idsTruthy : IdsVal → Bool
  | .scalar v => truthy v
  | .list xs => !xs.isEmpty

/-- A `test_assignments` row (fields the core reads). -/
structure TestAssignment where
  id : String
  user_id : String
  admin_id : String := ""
  tenant_id : Option String := Option.none
  test_type : String
  status : String := "assigned"
  max_attempts : Option Int := some 3
  custom_config : Option CustomConfig := Option.none
deriving Repr, DecidableEq

/-- `assignment.max_attempts or MAX_ATTEMPTS_DEFAULT` (a stored `0` is falsy
and also falls back to the default `1`). -/
def maxAttemptsOf (a : TestAssignment) : Int :=
  match a.max_attempts with
  | some n => if n ≠ 0 then n else 1
  | Option.none => 1

/-- The calling principal as supplied by the identity service. -/
structure User where
  id : String
  role : String
  tenant_id : Option String := Option.none
deriving Repr, DecidableEq

/-- A question served to the candidate: an SJT scenario dictionary verbatim,
or the JDT `{'question','preferredAnswer','competency'}` dictionary built by
`start_test_attempt`. -/
inductive Question where
  | sjtQ (sc : Scenario)
  | jdtQ (question preferredAnswer competency : Option PyVal)
deriving Repr, DecidableEq

/-- One entry of `attempt_metadata['answers']` as written by
`submit_attempt_answer`. -/
structure StoredAnswer where
  id : String
  base_question_index : Int
  is_follow_up : Bool
  follow_up_sequence : Int
  answer_text : String
  duration_seconds : Option Int := Option.none
  metadata : Option PyVal := Option.none
  created_at : Nat := 0
deriving Repr, DecidableEq

/-- A score payload dictionary, stored verbatim into the metadata bag. -/
abbrev ScoreDict := List (String × PyVal)

/-- The `attempt_metadata` JSON bag.  `answers`/`follow_up_counts` model
`meta.get(key) or default` (an absent key and an empty collection behave
identically in the code). -/
structure AttemptMeta where
  config_id : Option String := Option.none
  role_category : Option String := Option.none
  config_version : Option Int := Option.none
  answers : List StoredAnswer := []
  follow_up_counts : List (String × Int) := []
  score : Option ScoreDict := Option.none
  answers_count : Option Nat := Option.none
deriving Repr, DecidableEq

/-- `d.get(k, dflt)` on the follow-up counter dictionary. -/
def dictGetD (d : List (String × Int)) (k : String) (dflt : Int) : Int :=
  match d.find? (fun e => e.1 = k) with
  | some e => e.2
  | Option.none => dflt

/-- `d[k] = v` on the follow-up counter dictionary (Python dicts keep the
original position of an existing key and append a new one). -/
def dictSet : List (String × Int) → String → Int → List (String × Int)
  | [], k, v => [(k, v)]
  | e :: rest, k, v => if e.1 = k then (k, v) :: rest else e :: dictSet rest k v

/-- `d.setdefault(k, v)` on the follow-up counter dictionary. -/
def dictSetdefault (d : List (String × Int)) (k : String) (v : Int) :
    List (String × Int) :=
  if (d.find? (fun e => e.1 = k)).isSome then d else d ++ [(k, v)]

/-- A `test_attempts` row. -/
structure TestAttempt where
  id : String
  user_id : String
  test_type : String
  assignment_id : Option String := Option.none
  attempt_number : Int := 1
  status : String := "in_progress"
  started_at : Nat := 0
  completed_at : Option Nat := Option.none
  max_questions : Int := 0
  questions_snapshot : List Question := []
  attempt_metadata : AttemptMeta := {}
deriving Repr, DecidableEq

/-- The persistent state the core reads and writes, plus a counter producing
the fresh identifiers `uuid.uuid4()` yields. -/
structure DB where
  assignments : List TestAssignment := []
  attempts : List TestAttempt := []
  configurations : List Configuration := []
  nextId : Nat := 0
deriving Repr, DecidableEq

/-- Deployment environment: `AUTO_ASSIGN_ON_AVAILABILITY` flag. -/
structure Env where
  autoAssignOnAvailability : Bool := false
deriving Repr, DecidableEq

/-- An `HTTPException` (or an unhandled exception surfaced as a server
error): status code and detail. -/
structure HErr where
  code : Nat
  detail : String
deriving Repr, DecidableEq

/-! ## Database queries -/

/-- `order_by(created_at.desc()).first()`: a row with maximal `created_at`
(SQL leaves tie order unspecified; the first listed maximum is chosen). -/
def firstMaxCreated (l : List Configuration) : Option Configuration :=
  l.foldl
    (fun best c =>
      match best with
      | Option.none => some c
      | some b => if c.created_at > b.created_at then some c else best)
    Option.none

/-- `_get_config`: the active configuration for a tenant and test type,
preferring a tenant-scoped row and falling back to a system-scoped one.
The TTL cache is transparent here (no modelled operation mutates
configuration rows), so only the underlying query is modelled. -/
def getConfig (db : DB) (tenant_id : Option String) (test_type : String) :
    Option Configuration :=
  let config_type := pyLower test_type
  let q := db.configurations.filter
    (fun c => c.config_type = config_type ∧ c.is_active)
  let cfgTenant :=
    if strTruthy tenant_id then
      firstMaxCreated (q.filter (fun c => c.tenant_id = tenant_id))
    else Option.none
  match cfgTenant with
  | some c => some c
  | Option.none => firstMaxCreated (q.filter (fun c => c.scope = "system"))

/-- `db.query(TestAssignment).filter(user_id, test_type).first()`. -/
def findAssignment (l : List TestAssignment) (uid tt : String) :
    Option TestAssignment :=
  l.find? (fun a => a.user_id = uid ∧ a.test_type = tt)

/-- `db.query(TestAttempt).filter(TestAttempt.id == attempt_id).first()`. -/
def findAttempt (l : List TestAttempt) (aid : String) : Option TestAttempt :=
  l.find? (fun a => a.id = aid)

/-- `.filter(user_id, test_type, status).count()`. -/
def countMatching (uid tt st : String) : List TestAttempt → Nat
  | [] => 0
  | a :: rest =>
    (if a.user_id = uid ∧ a.test_type = tt ∧ a.status = st then 1 else 0)
      + countMatching uid tt st rest

/-- `.filter(user_id, test_type).count()` (any status). -/
def countAll (uid tt : String) : List TestAttempt → Nat
  | [] => 0
  | a :: rest =>
    (if a.user_id = uid ∧ a.test_type = tt then 1 else 0) + countAll uid tt rest

/-- `.filter(user_id, test_type, status == 'in_progress').first() is not None`. -/
def hasInProgress (l : List TestAttempt) (uid tt : String) : Bool :=
  l.any (fun a => a.user_id = uid ∧ a.test_type = tt ∧ a.status = "in_progress")

/-- Fresh identifier produced by the `uuid.uuid4()` of a state with counter
`n`. -/
def freshId (n : Nat) : String := "id-" ++ toString n

/-! ## Eligibility evaluation (`get_test_availability`) -/

/-- The `TestAvailabilityResponse` schema. -/
structure TestAvailabilityResponse where
  test_type : String
  assigned : Bool
  configured : Bool
  attempts_used : Int
  max_attempts : Int
  can_start : Bool
  assignment_status : Option String
  assigned_question_count : Option Int
deriving Repr, DecidableEq

/-- Body of `get_test_availability` after the test-type validation, for an
already-uppercased `tt`.  Returns the (possibly auto-assignment-extended)
database and the response. -/
def availabilityCore (env : Env) (db : DB) (current_user : User) (tt : String) :
    DB × TestAvailabilityResponse :=
  let cfg := getConfig db current_user.tenant_id tt
  let configured := cfg.isSome
  -- Assignment resolution (candidates need one; other roles are always
  -- "assigned" for preview).  The optional auto-assignment both mutates the
  -- database and is adopted as the found assignment.
  let resolved : DB × Option TestAssignment × Bool × Option String × Int :=
    if current_user.role = "candidate" then
      match findAssignment db.assignments current_user.id tt with
      | some a => (db, some a, true, some a.status, maxAttemptsOf a)
      | Option.none =>
        if configured ∧ env.autoAssignOnAvailability then
          let newA : TestAssignment :=
            { id := freshId db.nextId
              user_id := current_user.id
              admin_id := current_user.id
              tenant_id := current_user.tenant_id
              test_type := tt
              status := "assigned"
              max_attempts := some 1 }
          ({ db with assignments := db.assignments ++ [newA],
                     nextId := db.nextId + 1 },
           some newA, true, some "assigned", 1)
        else (db, Option.none, false, Option.none, 1)
    else (db, Option.none, true, some "admin_preview", 1)
  let db1 := resolved.1
  let assignment := resolved.2.1
  let assigned := resolved.2.2.1
  let assignment_status := resolved.2.2.2.1
  let max_attempts := resolved.2.2.2.2
  let attempts_used : Int :=
    countMatching current_user.id tt "completed" db1.attempts
  let has_in_progress := hasInProgress db1.attempts current_user.id tt
  -- SJT scenario-restriction question count, else from the configuration.
  let aqc0 : Option Int :=
    if tt = "SJT" ∧ assignment.isSome
        ∧ customTruthy (assignment.elim Option.none (·.custom_config)) then
      let ids :=
        match ccGetIds (assignment.elim Option.none (·.custom_config)) with
        | some iv => if idsTruthy iv then iv else .list []
        | Option.none => .list []
      match ids with
      | .list xs => some (xs.length : Int)
      | .scalar _ => Option.none
    else Option.none
  let assigned_question_count : Option Int :=
    match aqc0 with
    | some v => some v
    | Option.none =>
      if configured then
        match cfg with
        | some c =>
          let numv := c.config_data.settings.numberOfQuestions
          if truthy numv then pyInt? numv
          else some (c.config_data.scenarios.length : Int)
        | Option.none => Option.none
      else Option.none
  let can_start := assigned && configured
    && decide (attempts_used < max_attempts) && !has_in_progress
  (db1,
   { test_type := tt
     assigned := assigned
     configured := configured
     attempts_used := attempts_used
     max_attempts := max_attempts
     can_start := can_start
     assignment_status := assignment_status
     assigned_question_count := assigned_question_count })

/-- `get_test_availability`: validate the test type, then evaluate
eligibility (`availabilityCore`). -/
def getTestAvailability (env : Env) (db : DB) (current_user : User)
    (test_type : String) : Except HErr (DB × TestAvailabilityResponse) :=
  let tt := pyUpper test_type
  if tt = "JDT" ∨ tt = "SJT" then
    .ok (availabilityCore env db current_user tt)
  else .error ⟨400, "Invalid test_type"⟩

/-! ## Attempt materialization (`start_test_attempt`) -/

/-- Use a truthy settings value as an `int` (comparison with / slicing by /
`range` over).  Python raises `TypeError` for a non-numeric value, which the
framework surfaces as a server error. -/
def asIndex : PyVal → Except HErr Int
  | .vint n => .ok n
  | .vbool b => .ok (if b then 1 else 0)
  | _ => .error ⟨500, "TypeError"⟩

/-- Python's `<` on strings: lexicographic comparison by code point. -/
def charsLt : List Char → List Char → Bool
  | [], [] => false
  | [], _ :: _ => true
  | _ :: _, [] => false
  | a :: as, b :: bs =>
    if a.toNat < b.toNat then true
    else if b.toNat < a.toNat then false
    else charsLt as bs

/-- Python string comparison `a < b`. -/
def pyStrLt (a b : String) : Bool := charsLt a.data b.data

/-- `y` may stay before `x` in the ascending sort by
`key=lambda x: str(x.get('id'))`. -/
def scenLe (y x : Scenario) : Bool := !pyStrLt (pyStrOpt x.id) (pyStrOpt y.id)

/-- Insert a scenario after every element whose key is `≤` its own. -/
def insertScen (x : Scenario) : List Scenario → List Scenario
  | [] => [x]
  | y :: ys => if scenLe y x then y :: insertScen x ys else x :: y :: ys

/-- Python `list.sort(key=lambda x: str(x.get('id')))`: the stable ascending
sort by scenario identifier string, as a stable insertion sort. -/
def sortScenarios (l : List Scenario) : List Scenario :=
  l.foldl (fun acc x => insertScen x acc) []

/-- The `StartAttemptRequest` schema. -/
structure StartAttemptRequest where
  test_type : String
  role_category : Option String := Option.none
deriving Repr, DecidableEq

/-- The `StartAttemptResponse` schema (`attempt` is the row serialized
field-for-field by `from_orm`). -/
structure StartAttemptResponse where
  attempt : TestAttempt
  questions : List Question
  can_start : Bool
  remaining_attempts : Int
deriving Repr, DecidableEq

/-- SJT branch of `start_test_attempt`'s question selection: honor a truthy
assignment scenario-id restriction by filtering the configuration's scenario
list in its original order; otherwise truncate (after a deterministic sort
when fewer than the pool are requested). -/
def selectSjtQuestions (db1 : DB) (current_user : User) (cfg : Configuration)
    (tt : String) : Except HErr (List Question) :=
  let scenarios := cfg.config_data.scenarios
  let settings := cfg.config_data.settings
  let assignment :=
    if current_user.role = "candidate" then
      findAssignment db1.assignments current_user.id tt
    else Option.none
  let selected_ids : Option (List PyVal) :=
    match assignment with
    | some a =>
      if customTruthy a.custom_config then
        match ccGetIds a.custom_config with
        | some (.list xs) => some xs
        | _ => Option.none
      else Option.none
    | Option.none => Option.none
  match selected_ids with
  | some (x :: rest) =>
    -- `if selected_ids:` — a non-empty restriction list
    let id_set := (x :: rest).map pyStr
    .ok ((scenarios.filter
      (fun sc => id_set.contains (pyStrOpt sc.id))).map .sjtQ)
  | _ =>
    -- no restriction (or an empty/absent one)
    let numE : Except HErr Int :=
      if truthy settings.numberOfQuestions then asIndex settings.numberOfQuestions
      else .ok (scenarios.length : Int)
    match numE with
    | .error e => .error e
    | .ok num =>
      let pool := scenarios
      let pool1 := if num < (pool.length : Int) then sortScenarios pool else pool
      .ok ((pySlice pool1 num).map .sjtQ)

/-- JDT branch of `start_test_attempt`'s question selection: pick a role
bucket, truncate its manual questions, and append AI placeholders. -/
def selectJdtQuestions (cfg : Configuration) (payload : StartAttemptRequest) :
    Except HErr (List Question) :=
  let roles := cfg.config_data.roles
  let settings := cfg.config_data.settings
  let fromCat : Option Role :=
    if strTruthy payload.role_category then
      roles.find? (fun r =>
        match r.roleName with
        | some (.vstr s) => payload.role_category = some s
        | _ => false)
    else Option.none
  -- `if not selected_role and roles: selected_role = roles[0]`
  let selected_role : Option Role :=
    match fromCat with
    | some r =>
      if roleTruthy r then some r
      else match roles with
        | r0 :: _ => some r0
        | [] => some r
    | Option.none =>
      match roles with
      | r0 :: _ => some r0
      | [] => Option.none
  let manual_qs : List JdtQuestion :=
    match selected_role with
    | some r => if roleTruthy r then r.questions else []
    | Option.none => []
  let numManualE : Except HErr Int :=
    if truthy settings.numberOfQuestions then asIndex settings.numberOfQuestions
    else .ok (manual_qs.length : Int)
  match numManualE with
  | .error e => .error e
  | .ok num_manual =>
    let manual_subset := pySlice manual_qs num_manual
    let ai0 :=
      if truthy settings.aiGeneratedQuestions then settings.aiGeneratedQuestions
      else settings.aiQuestions
    let ai1 := if truthy ai0 then ai0 else .vint 0
    match asIndex ai1 with
    | .error e => .error e
    | .ok ai_num =>
      let manual := manual_subset.map
        (fun q => Question.jdtQ q.text q.preferredAnswer q.competency)
      let placeholders := List.replicate ai_num.toNat
        (Question.jdtQ (some (.vstr "AI generated question placeholder"))
          (some (.vstr "Evaluate for clarity/relevance"))
          (some (.vstr "AI-Assessed")))
      .ok (manual ++ placeholders)

/-- `start_test_attempt`: re-run the eligibility check, materialize the
question list, and append the new `in_progress` attempt. -/
def start_test_attempt (env : Env) (db : DB) (current_user : User)
    (payload : StartAttemptRequest) (now : Nat) :
    Except HErr (DB × StartAttemptResponse) :=
  let tt := pyUpper payload.test_type
  if tt = "JDT" ∨ tt = "SJT" then
    match getTestAvailability env db current_user tt with
    | .error e => .error e
    | .ok (db1, availability) =>
      if !availability.can_start then .error ⟨403, "Cannot start this test"⟩
      else
        match getConfig db1 current_user.tenant_id tt with
        | Option.none => .error ⟨500, "Configuration missing"⟩
        | some cfg =>
          let questionsE :=
            if tt = "SJT" then selectSjtQuestions db1 current_user cfg tt
            else selectJdtQuestions cfg payload
          match questionsE with
          | .error e => .error e
          | .ok questions =>
            let previous_attempts := countAll current_user.id tt db1.attempts
            let attempt_number : Int := (previous_attempts : Int) + 1
            let assignment :=
              if current_user.role = "candidate" then
                findAssignment db1.assignments current_user.id tt
              else Option.none
            let attempt : TestAttempt :=
              { id := freshId db1.nextId
                user_id := current_user.id
                test_type := tt
                assignment_id := assignment.map (·.id)
                attempt_number := attempt_number
                status := "in_progress"
                started_at := now
                max_questions := (questions.length : Int)
                questions_snapshot := questions
                attempt_metadata :=
                  { config_id := some cfg.id
                    role_category := payload.role_category
                    config_version := some cfg.version } }
            let db2 := { db1 with attempts := db1.attempts ++ [attempt],
                                  nextId := db1.nextId + 1 }
            let remaining_allowed := availability.max_attempts - attempt_number
            .ok (db2,
              { attempt := attempt
                questions := questions
                can_start := true
                remaining_attempts := max 0 remaining_allowed })
  else .error ⟨400, "Invalid test_type"⟩

/-! ## Answer ledger (`submit_attempt_answer`) -/

/-- The `SubmitAnswerRequest` schema. -/
structure SubmitAnswerRequest where
  question_index : Int
  answer_text : String
  is_follow_up : Bool := false
  base_question_index : Option Int := Option.none
  follow_up_sequence : Option Int := Option.none
  duration_seconds : Option Int := Option.none
  metadata : Option PyVal := Option.none
deriving Repr, DecidableEq

/-- The `SubmitAnswerResponse` schema. -/
structure SubmitAnswerResponse where
  stored : Bool
  can_generate_follow_up : Bool
  remaining_follow_ups : Int
  total_follow_ups_for_base : Int
  max_follow_ups : Int
  answer : StoredAnswer
deriving Repr, DecidableEq

/-- `_derive_max_follow_ups`: `followUpCount`, else the `or`-chain
`aiGeneratedQuestions or aiQuestions`, else `1`; `int(...)` failures fall
back to `1`; negatives clamp to `0` and the result caps at `5`. -/
def deriveMaxFollowUps (config_data : ConfigData) : Int :=
  let settings := config_data.settings
  let val0 := settings.followUpCount
  let val1 :=
    if val0 = .vnone then
      if truthy settings.aiGeneratedQuestions then settings.aiGeneratedQuestions
      else settings.aiQuestions
    else val0
  let val2 := if val1 = .vnone then .vint 1 else val1
  let val3 := (pyInt? val2).getD 1
  let val4 := if val3 < 0 then 0 else val3
  min val4 5

/-- Replace an attempt row (matched by id) by its mutated version. -/
def updateAttempt (l : List TestAttempt) (aid : String)
    (f : TestAttempt → TestAttempt) : List TestAttempt :=
  l.map (fun a => if a.id = aid then f a else a)

/-- `submit_attempt_answer`: store one answer into the in-progress attempt's
metadata bag and update the per-base-question follow-up counter, reporting
remaining quota. -/
def submit_attempt_answer (db : DB) (current_user : User) (attempt_id : String)
    (payload : SubmitAnswerRequest) (now : Nat) :
    Except HErr (DB × SubmitAnswerResponse) :=
  match findAttempt db.attempts attempt_id with
  | Option.none => .error ⟨404, "Attempt not found"⟩
  | some attempt =>
    if current_user.role = "candidate" ∧ attempt.user_id ≠ current_user.id then
      .error ⟨403, "Access denied"⟩
    else if attempt.status ≠ "in_progress" then
      .error ⟨400, "Attempt not active"⟩
    else
      let cfg := getConfig db current_user.tenant_id attempt.test_type
      let config_data := match cfg with
        | some c => c.config_data
        | Option.none => {}
      let max_follow : Int :=
        if attempt.test_type = "SJT" then deriveMaxFollowUps config_data else 0
      let meta := attempt.attempt_metadata
      let answers := meta.answers
      let follow_counts := meta.follow_up_counts
      let base_index : Int :=
        match payload.base_question_index with
        | some b => b
        | Option.none => payload.question_index
      let key := toString base_index
      let stepped : List (String × Int) × Int :=
        if !payload.is_follow_up then
          (dictSetdefault follow_counts key 0, 0)
        else
          let existing := dictGetD follow_counts key 0
          if existing ≥ max_follow then
            -- still store the answer; the sequence is informational only
            (follow_counts, existing + 1)
          else
            (dictSet follow_counts key (existing + 1), existing + 1)
      let follow_counts1 := stepped.1
      let sequence := stepped.2
      let stored_answer : StoredAnswer :=
        { id := freshId db.nextId
          base_question_index := base_index
          is_follow_up := payload.is_follow_up
          follow_up_sequence :=
            match payload.follow_up_sequence with
            | some s => s
            | Option.none => sequence
          answer_text := payload.answer_text
          duration_seconds := payload.duration_seconds
          metadata := payload.metadata
          created_at := now }
      let answers1 := answers ++ [stored_answer]
      let used := dictGetD follow_counts1 key 0
      let remaining : Int :=
        if attempt.test_type = "SJT" then max 0 (max_follow - used) else 0
      let cgf0 := (!payload.is_follow_up && decide (max_follow > 0))
        || (payload.is_follow_up && decide (remaining > 0))
      let can_generate_follow_up :=
        if payload.is_follow_up && decide (remaining = 0) then false else cgf0
      let meta1 := { meta with answers := answers1,
                               follow_up_counts := follow_counts1 }
      let db1 := { db with
        attempts := updateAttempt db.attempts attempt_id
          (fun a => { a with attempt_metadata := meta1 })
        nextId := db.nextId + 1 }
      .ok (db1,
        { stored := true
          can_generate_follow_up := can_generate_follow_up
          remaining_follow_ups := remaining
          total_follow_ups_for_base := dictGetD follow_counts1 key 0
          max_follow_ups := max_follow
          answer := stored_answer })

/-! ## Attempt finalization (`complete_attempt`) -/

/-- The `CompleteAttemptRequest` schema (`status` is accepted but never
read by the handler). -/
structure CompleteAttemptRequest where
  status : Option String := Option.none
  answers : Option (List PyVal) := Option.none
  score : Option ScoreDict := Option.none
deriving Repr, DecidableEq

/-- The `CompleteAttemptResponse` schema. -/
structure CompleteAttemptResponse where
  attempt : TestAttempt
  message : String
deriving Repr, DecidableEq

/-- Truthiness of the optional `score` dictionary. -/
def scoreTruthy : Option ScoreDict → Bool
  | some s => !s.isEmpty
  | Option.none => false

/-- Truthiness of the optional `answers` list. -/
def answersTruthy : Option (List PyVal) → Bool
  | some xs => !xs.isEmpty
  | Option.none => false

/-- `complete_attempt`: finalize an in-progress attempt exactly once, setting
`status := 'completed'` and the completion timestamp, merging optional
score / answer-count metadata. -/
def complete_attempt (db : DB) (current_user : User) (attempt_id : String)
    (payload : CompleteAttemptRequest) (now : Nat) :
    Except HErr (DB × CompleteAttemptResponse) :=
  match findAttempt db.attempts attempt_id with
  | Option.none => .error ⟨404, "Attempt not found"⟩
  | some attempt =>
    if current_user.role = "candidate" ∧ attempt.user_id ≠ current_user.id then
      .error ⟨403, "Access denied"⟩
    else if attempt.status ≠ "in_progress" then
      .error ⟨400, "Attempt already finalized"⟩
    else
      let a1 := { attempt with status := "completed", completed_at := some now }
      let a2 :=
        if scoreTruthy payload.score || answersTruthy payload.answers then
          let meta := a1.attempt_metadata
          let meta1 :=
            if scoreTruthy payload.score then { meta with score := payload.score }
            else meta
          let acount := (payload.answers.getD []).length
          let meta2 :=
            if answersTruthy payload.answers then
              { meta1 with answers_count := some acount }
            else meta1
          { a1 with attempt_metadata := meta2 }
        else a1
      let db1 := { db with
        attempts := updateAttempt db.attempts attempt_id (fun _ => a2) }
      .ok (db1, { attempt := a2, message := "Attempt completed" })

/-! ## State-machine view of the core operations -/

/-- The per-candidate-per-test-type single-`in_progress` invariant. -/
def InvDB (db : DB) : Prop :=
  ∀ uid tt, countMatching uid tt "in_progress" db.attempts ≤ 1

/-- One successful core operation (the error branches leave the modelled
state unchanged).  These are the only operations that write attempt rows;
`get_attempt` / `list_attempts` are read-only. -/
inductive Step (db : DB) : DB → Prop where
  | avail {env : Env} {u : User} {t : String} {db1 : DB}
      {r : TestAvailabilityResponse}
      (h : getTestAvailability env db u t = .ok (db1, r)) : Step db db1
  | start {env : Env} {u : User} {p : StartAttemptRequest} {now : Nat}
      {db1 : DB} {r : StartAttemptResponse}
      (h : start_test_attempt env db u p now = .ok (db1, r)) : Step db db1
  | submit {u : User} {aid : String} {p : SubmitAnswerRequest} {now : Nat}
      {db1 : DB} {r : SubmitAnswerResponse}
      (h : submit_attempt_answer db u aid p now = .ok (db1, r)) : Step db db1
  | complete {u : User} {aid : String} {p : CompleteAttemptRequest}
      {now : Nat} {db1 : DB} {r : CompleteAttemptResponse}
      (h : complete_attempt db u aid p now = .ok (db1, r)) : Step db db1

/-! ## Spec-side quota definitions (for the refinement claim about
`_derive_max_follow_ups`) -/

/-- Integer-or-absent settings value (the shapes the quota claim speaks
about). -/
def intish : PyVal → Bool
  | .vnone => true
  | .vint _ => true
  | _ => false

/-- The integer carried by an integer-valued settings value. -/
def intOf : PyVal → Int
  | .vint n => n
  | _ => 0

/-- Value is an integer other than zero (Python-truthy integer). -/
def nonzeroInt : PyVal → Bool
  | .vint n => n != 0
  | _ => false

/-- The follow-up quota as the spec sentence states it: `followUpCount` if
present; otherwise the `aiGeneratedQuestions` or `aiQuestions` setting if
present; otherwise `1`; clamped to the range `[0, 5]`. -/
def specMaxFollowUps (s : Settings) : Int :=
  let raw : Int :=
    if s.followUpCount ≠ .vnone then intOf s.followUpCount
    else if s.aiGeneratedQuestions ≠ .vnone then intOf s.aiGeneratedQuestions
    else if s.aiQuestions ≠ .vnone then intOf s.aiQuestions
    else 1
  min (max raw 0) 5

/-- The follow-up quota as the code actually derives it (amended claim):
`followUpCount` if present; otherwise `aiGeneratedQuestions` if present
**and nonzero**; otherwise `aiQuestions` if present (even zero); otherwise
`1`; clamped to `[0, 5]`.  A present-but-zero `aiGeneratedQuestions` with
no `aiQuestions` falls through to the default `1`. -/
def specMaxFollowUpsAmended (s : Settings) : Int :=
  let raw : Int :=
    if s.followUpCount ≠ .vnone then intOf s.followUpCount
    else if nonzeroInt s.aiGeneratedQuestions then intOf s.aiGeneratedQuestions
    else if s.aiQuestions ≠ .vnone then intOf s.aiQuestions
    else 1
  min (max raw 0) 5

deriving instance DecidableEq for Except

/-! ## Concrete fixtures (used to instantiate the theorems below) -/

/-- A candidate principal. -/
def candU : User := { id := "u1", role := "candidate" }

/-- An SJT scenario with a string id. -/
def scenOf (i : String) : Scenario := { id := some (.vstr i) }

/-- A plain SJT assignment for the candidate (no restriction). -/
def asgPlain : TestAssignment :=
  { id := "as1", user_id := "u1", test_type := "SJT" }

/-- An SJT assignment restricted to scenario ids `["s2","s1"]`. -/
def asgRestr : TestAssignment :=
  { id := "as1"
    user_id := "u1"
    test_type := "SJT"
    custom_config :=
      some { sjt_scenario_ids := some (.list [.vstr "s2", .vstr "s1"]) } }

/-- A system-scoped active SJT configuration. -/
def cfgOf (scens : List Scenario) (st : Settings) : Configuration :=
  { id := "cfg1"
    config_type := "sjt"
    scope := "system"
    config_data := { scenarios := scens, settings := st } }

/-- An attempt row owned by the candidate in the given status. -/
def attOf (st : String) : TestAttempt :=
  { id := "a1", user_id := "u1", test_type := "SJT", status := st }

/-- Database with one plain assignment and a one-scenario configuration. -/
def dbS : DB :=
  { assignments := [asgPlain]
    configurations := [cfgOf [scenOf "s1"] {}] }

/-- The attempt row `start_test_attempt` creates from `dbS` at time 7. -/
def attS : TestAttempt :=
  { id := "id-0"
    user_id := "u1"
    test_type := "SJT"
    assignment_id := some "as1"
    attempt_number := 1
    status := "in_progress"
    started_at := 7
    max_questions := 1
    questions_snapshot := [.sjtQ (scenOf "s1")]
    attempt_metadata := { config_id := some "cfg1", config_version := some 1 } }

/-- `dbS` after the start. -/
def dbS1 : DB := { dbS with attempts := [attS], nextId := 1 }

/-- The start response from `dbS`. -/
def respS : StartAttemptResponse :=
  { attempt := attS
    questions := [.sjtQ (scenOf "s1")]
    can_start := true
    remaining_attempts := 2 }

/-- The availability response on `dbS`. -/
def respA : TestAvailabilityResponse :=
  { test_type := "SJT"
    assigned := true
    configured := true
    attempts_used := 0
    max_attempts := 3
    can_start := true
    assignment_status := some "assigned"
    assigned_question_count := some 1 }

/-- Database with the restricted assignment and scenarios `[s1,s2,s3]`. -/
def db3 : DB :=
  { assignments := [asgRestr]
    configurations := [cfgOf [scenOf "s1", scenOf "s2", scenOf "s3"] {}] }

/-- The attempt row created from `db3`: scenarios `s1, s2` in configuration
order. -/
def att3r : TestAttempt :=
  { attS with max_questions := 2
              questions_snapshot := [.sjtQ (scenOf "s1"), .sjtQ (scenOf "s2")] }

/-- `db3` after the start. -/
def db3r : DB := { db3 with attempts := [att3r], nextId := 1 }

/-- The start response from `db3`. -/
def resp3 : StartAttemptResponse :=
  { attempt := att3r
    questions := [.sjtQ (scenOf "s1"), .sjtQ (scenOf "s2")]
    can_start := true
    remaining_attempts := 2 }

/-- Database with scenarios `[b,a,c]` and `numberOfQuestions = 2`. -/
def db4 : DB :=
  { assignments := [asgPlain]
    configurations := [cfgOf [scenOf "b", scenOf "a", scenOf "c"]
      { numberOfQuestions := .vint 2 }] }

/-- The attempt row created from `db4`: `a, b` (sorted by id, truncated). -/
def att4r : TestAttempt :=
  { attS with max_questions := 2
              questions_snapshot := [.sjtQ (scenOf "a"), .sjtQ (scenOf "b")] }

/-- `db4` after the start. -/
def db4r : DB := { db4 with attempts := [att4r], nextId := 1 }

/-- The start response from `db4`. -/
def resp4 : StartAttemptResponse :=
  { attempt := att4r
    questions := [.sjtQ (scenOf "a"), .sjtQ (scenOf "b")]
    can_start := true
    remaining_attempts := 2 }

/-- A configuration with pool `[b,a]` and a present-but-zero
`numberOfQuestions` (zero is smaller than the pool size, yet falsy). -/
def cfg4z : Configuration :=
  cfgOf [scenOf "b", scenOf "a"] { numberOfQuestions := .vint 0 }

/-- Database with a plain assignment and the zero-count configuration. -/
def db4z : DB :=
  { assignments := [asgPlain]
    configurations := [cfg4z] }

/-- The attempt row created from `db4z`: the whole pool in configuration
order (`b` before `a`), neither sorted nor truncated. -/
def att4z : TestAttempt :=
  { attS with max_questions := 2
              questions_snapshot := [.sjtQ (scenOf "b"), .sjtQ (scenOf "a")] }

/-- `db4z` after the start. -/
def db4zr : DB := { db4z with attempts := [att4z], nextId := 1 }

/-- The start response from `db4z`. -/
def resp4z : StartAttemptResponse :=
  { attempt := att4z
    questions := [.sjtQ (scenOf "b"), .sjtQ (scenOf "a")]
    can_start := true
    remaining_attempts := 2 }

/-- An in-progress attempt whose base-question 0 follow-up counter is
already at 2. -/
def att5 : TestAttempt :=
  { attOf "in_progress" with
      attempt_metadata := { follow_up_counts := [("0", 2)] } }

/-- Database for the over-quota follow-up: `followUpCount = 2` and counter
already at 2. -/
def db5 : DB :=
  { attempts := [att5]
    configurations := [cfgOf [scenOf "s1"] { followUpCount := .vint 2 }] }

/-- The third follow-up answer as stored (sequence 3, beyond the cap). -/
def ans5 : StoredAnswer :=
  { id := "id-0"
    base_question_index := 0
    is_follow_up := true
    follow_up_sequence := 3
    answer_text := "f3"
    created_at := 9 }

/-- `db5` after the over-quota submission: answer appended, counter
unchanged. -/
def db5r : DB :=
  { db5 with
      attempts := [{ att5 with attempt_metadata :=
        { follow_up_counts := [("0", 2)], answers := [ans5] } }]
      nextId := 1 }

/-- The over-quota submission response. -/
def resp5r : SubmitAnswerResponse :=
  { stored := true
    can_generate_follow_up := false
    remaining_follow_ups := 0
    total_follow_ups_for_base := 2
    max_follow_ups := 2
    answer := ans5 }

/-- A JDT in-progress attempt. -/
def att6 : TestAttempt := { attOf "in_progress" with test_type := "JDT" }

/-- Database with only the JDT attempt (no configuration). -/
def db6 : DB := { attempts := [att6] }

/-- The base answer stored on the JDT attempt. -/
def ans6 : StoredAnswer :=
  { id := "id-0"
    base_question_index := 0
    is_follow_up := false
    follow_up_sequence := 0
    answer_text := "x"
    created_at := 9 }

/-- `db6` after the submission. -/
def db6r : DB :=
  { db6 with
      attempts := [{ att6 with attempt_metadata :=
        { answers := [ans6], follow_up_counts := [("0", 0)] } }]
      nextId := 1 }

/-- The JDT submission response (quota 0). -/
def resp6r : SubmitAnswerResponse :=
  { stored := true
    can_generate_follow_up := false
    remaining_follow_ups := 0
    total_follow_ups_for_base := 0
    max_follow_ups := 0
    answer := ans6 }

/-- Database with one in-progress attempt (for finalization). -/
def db7 : DB := { attempts := [attOf "in_progress"] }

/-- The attempt after completion at time 5. -/
def att7c : TestAttempt :=
  { attOf "in_progress" with status := "completed", completed_at := some 5 }

/-- `db7` after completion. -/
def db7c : DB := { db7 with attempts := [att7c] }

/-- The completion response. -/
def resp7 : CompleteAttemptResponse :=
  { attempt := att7c, message := "Attempt completed" }

/-- An in-progress one-question SJT attempt (for the bounds-free
submission). -/
def att10 : TestAttempt := { attOf "in_progress" with max_questions := 1 }

/-- Database with only that attempt (no configuration). -/
def db10 : DB := { attempts := [att10] }

/-- The out-of-range answer as stored (negative base index kept as given). -/
def ans10 : StoredAnswer :=
  { id := "id-0"
    base_question_index := -7
    is_follow_up := false
    follow_up_sequence := 0
    answer_text := "neg"
    created_at := 9 }

/-- `db10` after the submission: counter bucket keyed by `"-7"`. -/
def db10r : DB :=
  { db10 with
      attempts := [{ att10 with attempt_metadata :=
        { answers := [ans10], follow_up_counts := [("-7", 0)] } }]
      nextId := 1 }

/-- The bounds-free submission response. -/
def resp10r : SubmitAnswerResponse :=
  { stored := true
    can_generate_follow_up := true
    remaining_follow_ups := 1
    total_follow_ups_for_base := 0
    max_follow_ups := 1
    answer := ans10 }

/-! ## Theorems -/

/-- If `findAttempt` returns a row, that row bears the looked-up id. -/
theorem findAttempt_id {l : List TestAttempt} {aid : String} {a : TestAttempt}
    (h : findAttempt l aid = some a) : a.id = aid := by
  have := List.find?_some h
  exact of_decide_eq_true this

/-- Updating the row at an id commutes with looking it up, as long as the
update preserves the id. -/
theorem findAttempt_update (l : List TestAttempt) (aid : String)
    (f : TestAttempt → TestAttempt) (hf : ∀ a, a.id = aid → (f a).id = aid) :
    findAttempt (updateAttempt l aid f) aid = (findAttempt l aid).map f := by
  induction l with
  | nil => rfl
  | cons a rest ih =>
    by_cases h : a.id = aid
    · have hfa := hf a h
      simp [findAttempt, updateAttempt, List.find?, h, hfa]
    · simpa [findAttempt, updateAttempt, List.find?, h] using ih

/-- A successful `complete_attempt` presupposes an owned `in_progress` row and
finalizes exactly that row: status `'completed'`, completion timestamp `now`,
identity fields preserved, and the database updated at that row only. -/
theorem complete_ok_shape (db : DB) (u : User) (aid : String)
    (p : CompleteAttemptRequest) (now : Nat) (db1 : DB)
    (r1 : CompleteAttemptResponse)
    (h : complete_attempt db u aid p now = .ok (db1, r1)) :
    ∃ att, findAttempt db.attempts aid = some att
      ∧ ¬(u.role = "candidate" ∧ att.user_id ≠ u.id)
      ∧ att.status = "in_progress"
      ∧ r1.attempt.id = att.id
      ∧ r1.attempt.user_id = att.user_id
      ∧ r1.attempt.test_type = att.test_type
      ∧ r1.attempt.status = "completed"
      ∧ r1.attempt.completed_at = some now
      ∧ db1.attempts = updateAttempt db.attempts aid (fun _ => r1.attempt) := by
  rcases hfind : findAttempt db.attempts aid with _ | att <;>
    simp only [complete_attempt, hfind] at h
  · exact absurd h (by simp)
  · by_cases hown : u.role = "candidate" ∧ att.user_id ≠ u.id
    · rw [if_pos hown] at h
      exact absurd h (by simp)
    · rw [if_neg hown] at h
      by_cases hst : att.status ≠ "in_progress"
      · rw [if_pos hst] at h
        exact absurd h (by simp)
      · rw [if_neg hst] at h
        simp only [Except.ok.injEq, Prod.mk.injEq] at h
        obtain ⟨hdb, hr⟩ := h
        subst hr
        subst hdb
        exact ⟨att, rfl, hown, not_not.mp hst,
          by split <;> rfl, by split <;> rfl, by split <;> rfl,
          by split <;> rfl, by split <;> rfl, rfl⟩

/-- C7: `complete_attempt` on an attempt that is not `in_progress` fails with
the state-conflict error (never a silent no-op); in particular a second
complete of an already-completed attempt fails, and the `completed_at`
timestamp set by the first call remains on the stored row. -/
theorem C7_complete_requires_in_progress :
    (∀ (db : DB) (u : User) (aid : String) (p : CompleteAttemptRequest)
        (now : Nat) (att : TestAttempt),
      findAttempt db.attempts aid = some att →
      ¬(u.role = "candidate" ∧ att.user_id ≠ u.id) →
      att.status ≠ "in_progress" →
      complete_attempt db u aid p now = .error ⟨400, "Attempt already finalized"⟩)
    ∧
    (∀ (db : DB) (u : User) (aid : String) (p1 : CompleteAttemptRequest)
        (t1 : Nat) (db1 : DB) (r1 : CompleteAttemptResponse)
        (p2 : CompleteAttemptRequest) (t2 : Nat),
      complete_attempt db u aid p1 t1 = .ok (db1, r1) →
      r1.attempt.completed_at = some t1
      ∧ findAttempt db1.attempts aid = some r1.attempt
      ∧ complete_attempt db1 u aid p2 t2
          = .error ⟨400, "Attempt already finalized"⟩) := by
  have part1 : ∀ (db : DB) (u : User) (aid : String) (p : CompleteAttemptRequest)
      (now : Nat) (att : TestAttempt),
      findAttempt db.attempts aid = some att →
      ¬(u.role = "candidate" ∧ att.user_id ≠ u.id) →
      att.status ≠ "in_progress" →
      complete_attempt db u aid p now
        = .error ⟨400, "Attempt already finalized"⟩ := by
    intro db u aid p now att hfind hown hst
    simp only [complete_attempt, hfind]
    rw [if_neg hown, if_pos hst]
  refine ⟨part1, ?_⟩
  intro db u aid p1 t1 db1 r1 p2 t2 h
  obtain ⟨att, hfind, hown, _, hid, huid, _, hstat, hca, hatts⟩ :=
    complete_ok_shape db u aid p1 t1 db1 r1 h
  have hid2 : r1.attempt.id = aid := hid.trans (findAttempt_id hfind)
  have hfind1 : findAttempt db1.attempts aid = some r1.attempt := by
    rw [hatts, findAttempt_update _ _ _ (fun a _ => hid2), hfind]
    rfl
  refine ⟨hca, hfind1, ?_⟩
  refine part1 db1 u aid p2 t2 r1.attempt hfind1 ?_ ?_
  · rw [huid]
    exact hown
  · rw [hstat]
    decide

/-- C10: `submit_attempt_answer` on an owned in-progress attempt succeeds for
every payload — no bounds check of `question_index`/`base_question_index`
against the attempt's `max_questions` or question snapshot (negative or
out-of-range indices are stored as given) — and when `base_question_index`
is absent the `question_index` serves as the base index, including as the
follow-up quota tracking key. -/
theorem C10_submit_no_bounds_check (db : DB) (u : User) (aid : String)
    (p : SubmitAnswerRequest) (now : Nat) (att : TestAttempt)
    (hfind : findAttempt db.attempts aid = some att)
    (hown : ¬(u.role = "candidate" ∧ att.user_id ≠ u.id))
    (hst : att.status = "in_progress") :
    ∃ db1 r, submit_attempt_answer db u aid p now = .ok (db1, r)
      ∧ r.stored = true
      ∧ r.answer.base_question_index
          = (match p.base_question_index with
             | some b => b
             | Option.none => p.question_index)
      ∧ r.answer.answer_text = p.answer_text
      ∧ (findAttempt db1.attempts aid).map
          (fun a => a.attempt_metadata.answers)
          = some (att.attempt_metadata.answers ++ [r.answer])
      ∧ (p.is_follow_up = false →
          (findAttempt db1.attempts aid).map
            (fun a => a.attempt_metadata.follow_up_counts)
            = some (dictSetdefault att.attempt_metadata.follow_up_counts
                (toString (match p.base_question_index with
                  | some b => b
                  | Option.none => p.question_index)) 0)) := by
  have hst' : ¬(att.status ≠ "in_progress") := by simp [hst]
  simp only [submit_attempt_answer, hfind, if_neg hown, if_neg hst']
  refine ⟨_, _, rfl, rfl, rfl, rfl, ?_, ?_⟩
  · rw [findAttempt_update, hfind]
    · rfl
    · exact fun a ha => ha
  · intro hfu
    rw [findAttempt_update, hfind]
    · simp [hfu]
    · exact fun a ha => ha

/-- When the candidate already has an assignment, the eligibility evaluation
does not touch the database (no auto-assignment is created). -/
theorem availabilityCore_db_of_found (env : Env) (db : DB) (u : User)
    (tt : String) (a : TestAssignment) (hrole : u.role = "candidate")
    (hfind : findAssignment db.assignments u.id tt = some a) :
    (availabilityCore env db u tt).1 = db := by
  simp [availabilityCore, hrole, hfind]

/-- The eligibility evaluation never touches attempts or configurations
(its only write is the optional auto-created assignment). -/
theorem availabilityCore_rows (env : Env) (db : DB) (u : User) (tt : String) :
    (availabilityCore env db u tt).1.attempts = db.attempts
    ∧ (availabilityCore env db u tt).1.configurations = db.configurations := by
  simp only [availabilityCore]
  split
  · split
    · exact ⟨rfl, rfl⟩
    · split
      · exact ⟨rfl, rfl⟩
      · exact ⟨rfl, rfl⟩
  · exact ⟨rfl, rfl⟩

/-- A successful `get_test_availability` is exactly `availabilityCore` on the
uppercased (and then valid) test type. -/
theorem getTestAvailability_ok (env : Env) (db : DB) (u : User) (t : String)
    (db0 : DB) (avail : TestAvailabilityResponse)
    (h : getTestAvailability env db u t = .ok (db0, avail)) :
    (pyUpper t = "JDT" ∨ pyUpper t = "SJT")
    ∧ availabilityCore env db u (pyUpper t) = (db0, avail) := by
  simp only [getTestAvailability] at h
  split at h
  · next hv =>
    simp only [Except.ok.injEq] at h
    exact ⟨hv, h⟩
  · exact absurd h (by simp)

/-- Success shape of `start_test_attempt`: the eligibility re-check passed,
a configuration was present, question selection succeeded, and the new
attempt row (appended to the database) carries the computed ordinal number,
`in_progress` status and the question snapshot; `remaining_attempts` is
`max 0 (max_attempts − attempt_number)`. -/
theorem start_ok_shape (env : Env) (db : DB) (u : User)
    (payload : StartAttemptRequest) (now : Nat) (db1 : DB)
    (resp : StartAttemptResponse)
    (h : start_test_attempt env db u payload now = .ok (db1, resp)) :
    ∃ db0 avail cfg questions,
      (pyUpper payload.test_type = "JDT" ∨ pyUpper payload.test_type = "SJT")
      ∧ getTestAvailability env db u (pyUpper payload.test_type)
          = .ok (db0, avail)
      ∧ avail.can_start = true
      ∧ getConfig db0 u.tenant_id (pyUpper payload.test_type) = some cfg
      ∧ (if pyUpper payload.test_type = "SJT" then
            selectSjtQuestions db0 u cfg (pyUpper payload.test_type)
          else selectJdtQuestions cfg payload) = .ok questions
      ∧ resp.questions = questions
      ∧ resp.attempt.attempt_number
          = (countAll u.id (pyUpper payload.test_type) db0.attempts : Int) + 1
      ∧ resp.attempt.status = "in_progress"
      ∧ resp.attempt.user_id = u.id
      ∧ resp.attempt.test_type = pyUpper payload.test_type
      ∧ resp.attempt.questions_snapshot = questions
      ∧ resp.remaining_attempts
          = max 0 (avail.max_attempts - resp.attempt.attempt_number)
      ∧ db1.attempts = db0.attempts ++ [resp.attempt] := by
  simp only [start_test_attempt] at h
  split at h
  · next hv =>
    rcases hA : getTestAvailability env db u (pyUpper payload.test_type)
        with e | ⟨db0, avail⟩ <;> rw [hA] at h
    · exact absurd h (by simp)
    · dsimp only at h
      cases hcs : avail.can_start <;> rw [hcs] at h
      · exact absurd h (by simp)
      · simp only [Bool.not_true, Bool.false_eq_true, if_false] at h
        rcases hC : getConfig db0 u.tenant_id (pyUpper payload.test_type)
            with _ | cfg <;> rw [hC] at h
        · exact absurd h (by simp)
        · dsimp only at h
          rcases hQ : (if pyUpper payload.test_type = "SJT" then
                selectSjtQuestions db0 u cfg (pyUpper payload.test_type)
              else selectJdtQuestions cfg payload)
              with e | questions <;> rw [hQ] at h
          · exact absurd h (by simp)
          · simp only [Except.ok.injEq, Prod.mk.injEq] at h
            obtain ⟨hdb, hr⟩ := h
            subst hr
            subst hdb
            exact ⟨db0, avail, cfg, questions, hv, rfl, hcs, hC, hQ, rfl, rfl,
              rfl, rfl, rfl, rfl, rfl, rfl⟩
  · exact absurd h (by simp)

/-- C3: An SJT `start_test_attempt` under an assignment restricting to
specific scenario identifiers serves exactly the configuration scenarios
whose id string is in the restriction set, in the configuration's original
order (the restriction list's own order is ignored and non-restricted
scenarios are excluded). -/
theorem C3_sjt_restriction_filter (env : Env) (db : DB) (u : User)
    (payload : StartAttemptRequest) (now : Nat) (asg : TestAssignment)
    (cfg : Configuration) (ids : List PyVal) (db1 : DB)
    (resp : StartAttemptResponse)
    (htt : payload.test_type = "SJT")
    (hrole : u.role = "candidate")
    (hasg : findAssignment db.assignments u.id "SJT" = some asg)
    (hct : customTruthy asg.custom_config = true)
    (hids : ccGetIds asg.custom_config = some (.list ids))
    (hne : ids ≠ [])
    (hcfg : getConfig db u.tenant_id "SJT" = some cfg)
    (hok : start_test_attempt env db u payload now = .ok (db1, resp)) :
    resp.questions
      = (cfg.config_data.scenarios.filter
          (fun sc => (ids.map pyStr).contains (pyStrOpt sc.id))).map
            Question.sjtQ := by
  have hup : pyUpper "SJT" = "SJT" := by decide
  obtain ⟨db0, avail, cfg', questions, -, hA, _, hcfg', hsel, hq, -⟩ :=
    start_ok_shape env db u payload now db1 resp hok
  rw [htt, hup] at hA hcfg' hsel
  -- the availability check found the assignment, so the database is unchanged
  have h2 := (getTestAvailability_ok env db u "SJT" db0 avail hA).2
  rw [hup] at h2
  have hdb0 : db0 = db := by
    have h3 : db0 = (availabilityCore env db u "SJT").1 := by rw [h2]
    rw [availabilityCore_db_of_found env db u "SJT" asg hrole hasg] at h3
    exact h3
  subst hdb0
  rw [hcfg] at hcfg'
  obtain rfl : cfg = cfg' := by injection hcfg'
  rw [if_pos rfl] at hsel
  rcases ids with _ | ⟨x, rest⟩
  · exact absurd rfl hne
  simp only [selectSjtQuestions, hrole, hasg, hct, hids, eq_self_iff_true,
    if_true] at hsel
  rw [Except.ok.injEq] at hsel
  rw [hq, ← hsel]

/-- Characterization of a successful eligibility response: the gating
formula for `can_start`, `attempts_used` as the completed-attempt count, and
the response's test type. -/
theorem availability_char (env : Env) (db : DB) (u : User) (t : String)
    (db0 : DB) (r : TestAvailabilityResponse)
    (h : getTestAvailability env db u t = .ok (db0, r)) :
    r.can_start = (r.assigned && r.configured
        && decide (r.attempts_used < r.max_attempts)
        && !hasInProgress db0.attempts u.id r.test_type)
    ∧ r.attempts_used
        = (countMatching u.id r.test_type "completed" db0.attempts : Int)
    ∧ r.test_type = pyUpper t := by
  have h2 := (getTestAvailability_ok env db u t db0 r h).2
  simp only [availabilityCore] at h2
  split at h2
  any_goals split at h2
  any_goals split at h2
  all_goals
    rw [Prod.mk.injEq] at h2
    obtain ⟨hdb, hr⟩ := h2
    subst hdb
    subst hr
    exact ⟨rfl, rfl, rfl⟩

/-- C1: The availability result satisfies
`can_start = assigned AND configured AND attempts_used < max_attempts AND
NOT has_in_progress`, where `attempts_used` counts only `'completed'`
attempts; in particular `attempts_used < max_attempts` failing forces
`can_start = false`. -/
theorem C1_can_start_formula (env : Env) (db : DB) (u : User) (t : String)
    (db0 : DB) (r : TestAvailabilityResponse)
    (h : getTestAvailability env db u t = .ok (db0, r)) :
    r.can_start = (r.assigned && r.configured
        && decide (r.attempts_used < r.max_attempts)
        && !hasInProgress db0.attempts u.id r.test_type)
    ∧ r.attempts_used
        = (countMatching u.id r.test_type "completed" db0.attempts : Int)
    ∧ (¬ r.attempts_used < r.max_attempts → r.can_start = false) := by
  obtain ⟨h1, h2, -⟩ := availability_char env db u t db0 r h
  refine ⟨h1, h2, ?_⟩
  intro hlt
  rw [h1, decide_eq_false hlt]
  simp

/-- C8: A successful `start_test_attempt` numbers the new attempt as the
count of all prior attempts (any status) for that candidate and test type
plus one, and returns `remaining_attempts = max(0, max_attempts −
attempt_number)` with `max_attempts` taken from the eligibility result. -/
theorem C8_attempt_number_and_remaining (env : Env) (db : DB) (u : User)
    (payload : StartAttemptRequest) (now : Nat) (db1 : DB)
    (resp : StartAttemptResponse) (db0 : DB)
    (avail : TestAvailabilityResponse)
    (hA : getTestAvailability env db u (pyUpper payload.test_type)
      = .ok (db0, avail))
    (hok : start_test_attempt env db u payload now = .ok (db1, resp)) :
    resp.attempt.attempt_number
      = (countAll u.id (pyUpper payload.test_type) db.attempts : Int) + 1
    ∧ resp.remaining_attempts
      = max 0 (avail.max_attempts - resp.attempt.attempt_number) := by
  obtain ⟨db0', avail', cfg, questions, -, hA', -, -, -, -, hnum, -, -, -, -,
    hrem, -⟩ := start_ok_shape env db u payload now db1 resp hok
  have hsame : db0' = db0 ∧ avail' = avail := by
    have h12 := hA'.symm.trans hA
    simp only [Except.ok.injEq, Prod.mk.injEq] at h12
    exact h12
  have hcore := (getTestAvailability_ok env db u (pyUpper payload.test_type)
    db0' avail' hA').2
  have hatts0 : db0'.attempts = db.attempts := by
    have hp : db0'.attempts
        = (availabilityCore env db u
            (pyUpper (pyUpper payload.test_type))).1.attempts := by
      rw [hcore]
    rw [hp]
    exact (availabilityCore_rows env db u
      (pyUpper (pyUpper payload.test_type))).1
  constructor
  · rw [hnum, hatts0]
  · rw [hrem, hsame.2]

/-- C4 counterexample: with no restriction, a pool `[b,a]` of size 2 and a
present `numberOfQuestions = 0` — a count smaller than the pool size — the
claim's truncation rule demands the sorted pool cut to 0 elements (the empty
list), but the code's falsy-`or` replaces the zero count by the pool size and
serves the whole pool in configuration order, unsorted. -/
theorem C4_counterexample :
    cfg4z.config_data.settings.numberOfQuestions = .vint 0
    ∧ ((0 : Int) < (cfg4z.config_data.scenarios.length : Int))
    ∧ start_test_attempt {} db4z candU { test_type := "SJT" } 7
        = .ok (db4zr, resp4z)
    ∧ resp4z.questions = [.sjtQ (scenOf "b"), .sjtQ (scenOf "a")]
    ∧ resp4z.questions
        ≠ ((sortScenarios cfg4z.config_data.scenarios).take
            ((0 : Int)).toNat).map Question.sjtQ := by
  decide

/-- C4 (amended): An SJT `start_test_attempt` without an assignment scenario
restriction serves, when the configured question count `n` is positive and
smaller than the scenario pool, the pool sorted by scenario identifier
string and truncated to `n` (deterministic by construction); and when the
count is unset or zero (falsy), all scenarios in configuration order. -/
theorem C4_sjt_deterministic_truncation (env : Env) (db : DB) (u : User)
    (payload : StartAttemptRequest) (now : Nat) (asg : TestAssignment)
    (cfg : Configuration) (db1 : DB) (resp : StartAttemptResponse)
    (htt : payload.test_type = "SJT")
    (hrole : u.role = "candidate")
    (hasg : findAssignment db.assignments u.id "SJT" = some asg)
    (hcc : asg.custom_config = Option.none)
    (hcfg : getConfig db u.tenant_id "SJT" = some cfg)
    (hok : start_test_attempt env db u payload now = .ok (db1, resp)) :
    (∀ n : Int, cfg.config_data.settings.numberOfQuestions = .vint n →
      0 < n → n < (cfg.config_data.scenarios.length : Int) →
      resp.questions
        = ((sortScenarios cfg.config_data.scenarios).take n.toNat).map
            Question.sjtQ)
    ∧ (cfg.config_data.settings.numberOfQuestions = .vnone
        ∨ cfg.config_data.settings.numberOfQuestions = .vint 0 →
      resp.questions = cfg.config_data.scenarios.map Question.sjtQ) := by
  have hup : pyUpper "SJT" = "SJT" := by decide
  obtain ⟨db0, avail, cfg', questions, -, hA, -, hcfg', hsel, hq, -⟩ :=
    start_ok_shape env db u payload now db1 resp hok
  rw [htt, hup] at hA hcfg' hsel
  have h2 := (getTestAvailability_ok env db u "SJT" db0 avail hA).2
  rw [hup] at h2
  have hdb0 : db0 = db := by
    have h3 : db0 = (availabilityCore env db u "SJT").1 := by rw [h2]
    rw [availabilityCore_db_of_found env db u "SJT" asg hrole hasg] at h3
    exact h3
  subst hdb0
  rw [hcfg] at hcfg'
  obtain rfl : cfg = cfg' := by injection hcfg'
  rw [if_pos rfl] at hsel
  simp only [selectSjtQuestions, hrole, hasg, hcc, customTruthy,
    eq_self_iff_true, if_true, Bool.false_eq_true, if_false] at hsel
  constructor
  · intro n hn hpos hlt
    rw [hn] at hsel
    have htr : truthy (PyVal.vint n) = true := by
      simp only [truthy, bne_iff_ne, ne_eq, decide_eq_true_eq]
      omega
    rw [htr] at hsel
    simp only [eq_self_iff_true, if_true, asIndex] at hsel
    rw [if_pos hlt] at hsel
    simp only [pySlice, if_neg (by omega : ¬ n < 0)] at hsel
    rw [Except.ok.injEq] at hsel
    rw [hq, ← hsel]
  · intro hb
    have htr : truthy cfg.config_data.settings.numberOfQuestions = false := by
      rcases hb with hb | hb <;> rw [hb] <;> decide
    rw [htr] at hsel
    simp only [Bool.false_eq_true, if_false] at hsel
    rw [if_neg (lt_irrefl _)] at hsel
    simp only [pySlice,
      if_neg (by omega :
        ¬ ((cfg.config_data.scenarios.length : Int) < 0)),
      Int.toNat_ofNat, List.take_length] at hsel
    rw [Except.ok.injEq] at hsel
    rw [hq, ← hsel]

/-- Counting a predicate over an appended row. -/
theorem countMatching_append (uid tt st : String) (l : List TestAttempt)
    (a : TestAttempt) :
    countMatching uid tt st (l ++ [a])
      = countMatching uid tt st l
        + (if a.user_id = uid ∧ a.test_type = tt ∧ a.status = st then 1
           else 0) := by
  induction l with
  | nil => simp [countMatching]
  | cons b rest ih =>
    simp only [List.cons_append, countMatching, List.append_eq]
    rw [ih]
    omega

/-- No `in_progress` row for a key means the `in_progress` count is zero. -/
theorem hasInProgress_false_count (l : List TestAttempt) (uid tt : String)
    (h : hasInProgress l uid tt = false) :
    countMatching uid tt "in_progress" l = 0 := by
  induction l with
  | nil => rfl
  | cons a rest ih =>
    simp only [hasInProgress, List.any_cons, Bool.or_eq_false_iff,
      decide_eq_false_iff_not] at h
    simp only [countMatching, if_neg h.1, ih h.2]

/-- An id-targeted update that preserves owner, test type and status leaves
every count unchanged. -/
theorem countMatching_update_eq (uid tt st : String) (l : List TestAttempt)
    (aid : String) (f : TestAttempt → TestAttempt)
    (hf : ∀ a, (f a).user_id = a.user_id ∧ (f a).test_type = a.test_type
      ∧ (f a).status = a.status) :
    countMatching uid tt st (updateAttempt l aid f)
      = countMatching uid tt st l := by
  induction l with
  | nil => rfl
  | cons a rest ih =>
    obtain ⟨h1, h2, h3⟩ := hf a
    by_cases hid : a.id = aid
    · simp only [updateAttempt, List.map, if_pos hid, countMatching, h1, h2,
        h3]
      simp only [updateAttempt] at ih
      omega
    · simp only [updateAttempt, List.map, if_neg hid, countMatching]
      simp only [updateAttempt] at ih
      omega

/-- Replacing a row by one whose status differs from the counted status
cannot increase the count. -/
theorem countMatching_update_le (uid tt st : String) (l : List TestAttempt)
    (aid : String) (b : TestAttempt) (hb : b.status ≠ st) :
    countMatching uid tt st (updateAttempt l aid (fun _ => b))
      ≤ countMatching uid tt st l := by
  induction l with
  | nil => exact Nat.le_refl _
  | cons a rest ih =>
    by_cases hid : a.id = aid
    · simp only [updateAttempt, countMatching, List.map, if_pos hid]
      have hzero : (if b.user_id = uid ∧ b.test_type = tt ∧ b.status = st
          then 1 else 0) = 0 := by
        simp [hb]
      simp only [updateAttempt] at ih
      omega
    · simp only [updateAttempt, countMatching, List.map, if_neg hid]
      simp only [updateAttempt] at ih
      omega

/-- A successful `submit_attempt_answer` only rewrites the metadata bag of
the addressed row: the database update is an id-targeted metadata update. -/
theorem submit_ok_db (db : DB) (u : User) (aid : String)
    (p : SubmitAnswerRequest) (now : Nat) (db1 : DB)
    (r : SubmitAnswerResponse)
    (h : submit_attempt_answer db u aid p now = .ok (db1, r)) :
    ∃ m, db1.attempts
      = updateAttempt db.attempts aid
          (fun a => { a with attempt_metadata := m }) := by
  rcases hfind : findAttempt db.attempts aid with _ | att <;>
    simp only [submit_attempt_answer, hfind] at h
  · exact absurd h (by simp)
  · by_cases hown : u.role = "candidate" ∧ att.user_id ≠ u.id
    · rw [if_pos hown] at h
      exact absurd h (by simp)
    · rw [if_neg hown] at h
      by_cases hst : att.status ≠ "in_progress"
      · rw [if_pos hst] at h
        exact absurd h (by simp)
      · rw [if_neg hst] at h
        simp only [Except.ok.injEq, Prod.mk.injEq] at h
        obtain ⟨hdb, -⟩ := h
        subst hdb
        exact ⟨_, rfl⟩

/-- C2: every successful core operation preserves the at-most-one
`in_progress` attempt per (candidate, test type) invariant: `start_attempt`
re-runs the eligibility check (whose `can_start` requires no in-progress
attempt) before appending a new `in_progress` row, the answer and
finalization operations never create rows, and the availability check only
ever creates an assignment. -/
theorem C2_single_in_progress_preserved (db db1 : DB)
    (hInv : InvDB db) (hstep : Step db db1) : InvDB db1 := by
  cases hstep with
  | @avail env u t db1 r h =>
    intro uid tt
    have h2 := (getTestAvailability_ok env db u t db1 r h).2
    have hatts : db1.attempts = db.attempts := by
      have hp : db1.attempts
          = (availabilityCore env db u (pyUpper t)).1.attempts := by rw [h2]
      rw [hp]
      exact (availabilityCore_rows env db u (pyUpper t)).1
    rw [hatts]
    exact hInv uid tt
  | @start env u p now db1 r h =>
    obtain ⟨db0, avail, cfg, questions, hval, hA, hcs, -, -, -, -, hstt, huid,
      htt2, -, -, hatts⟩ := start_ok_shape env db u p now db1 r h
    have hc := (getTestAvailability_ok env db u (pyUpper p.test_type)
      db0 avail hA).2
    have h0 : db0.attempts = db.attempts := by
      have hp : db0.attempts
          = (availabilityCore env db u
              (pyUpper (pyUpper p.test_type))).1.attempts := by rw [hc]
      rw [hp]
      exact (availabilityCore_rows env db u (pyUpper (pyUpper p.test_type))).1
    have hren : pyUpper (pyUpper p.test_type) = pyUpper p.test_type := by
      rcases hval with hv | hv <;> rw [hv] <;> decide
    obtain ⟨hform, -, httr⟩ :=
      availability_char env db u (pyUpper p.test_type) db0 avail hA
    rw [hren] at httr
    rw [hcs] at hform
    have hip : hasInProgress db0.attempts u.id avail.test_type = false := by
      cases hH : hasInProgress db0.attempts u.id avail.test_type
      · rfl
      · rw [hH] at hform
        simp at hform
    rw [httr, h0] at hip
    have hcount0 := hasInProgress_false_count db.attempts u.id
      (pyUpper p.test_type) hip
    intro uid tt
    rw [hatts, countMatching_append, h0]
    by_cases hmatch : r.attempt.user_id = uid ∧ r.attempt.test_type = tt
        ∧ r.attempt.status = "in_progress"
    · rw [if_pos hmatch]
      obtain ⟨e1, e2, -⟩ := hmatch
      rw [huid] at e1
      rw [htt2] at e2
      subst e1
      subst e2
      rw [hcount0]
    · rw [if_neg hmatch]
      have := hInv uid tt
      omega
  | @submit u aid p now db1 r h =>
    obtain ⟨m, hatts⟩ := submit_ok_db db u aid p now db1 r h
    intro uid tt
    rw [hatts, countMatching_update_eq]
    · exact hInv uid tt
    · exact fun a => ⟨rfl, rfl, rfl⟩
  | @complete u aid p now db1 r h =>
    obtain ⟨att, -, -, -, -, -, -, hstat, -, hatts⟩ :=
      complete_ok_shape db u aid p now db1 r h
    intro uid tt
    rw [hatts]
    have hle := countMatching_update_le uid tt "in_progress" db.attempts aid
      r.attempt (by rw [hstat]; decide)
    exact le_trans hle (hInv uid tt)

/-- C6 counterexample: with integer-valued settings
`{aiGeneratedQuestions: 0}` (and the other keys absent), the code derives a
quota of `1` while the claim's rule (`the aiGeneratedQuestions … setting if
present … clamped to [0, 5]`) yields `0`: Python's falsy-`or` chain treats a
present zero as absent. -/
theorem C6_counterexample :
    intish ({ aiGeneratedQuestions := .vint 0 } : Settings).followUpCount = true
    ∧ intish ({ aiGeneratedQuestions := .vint 0 } : Settings).aiGeneratedQuestions
        = true
    ∧ intish ({ aiGeneratedQuestions := .vint 0 } : Settings).aiQuestions = true
    ∧ deriveMaxFollowUps { settings := { aiGeneratedQuestions := .vint 0 } } = 1
    ∧ specMaxFollowUps { aiGeneratedQuestions := .vint 0 } = 0
    ∧ deriveMaxFollowUps { settings := { aiGeneratedQuestions := .vint 0 } }
        ≠ specMaxFollowUps { aiGeneratedQuestions := .vint 0 } := by
  decide

/-- C6 (amended): for integer-or-absent settings values the derived quota is
`followUpCount` if present; otherwise `aiGeneratedQuestions` if present and
nonzero; otherwise `aiQuestions` if present (even zero); otherwise `1`;
clamped to `[0, 5]` — and for a non-SJT (JDT) attempt `submit_attempt_answer`
always reports a quota of `0`. -/
theorem C6_quota_amended :
    (∀ cd : ConfigData,
      intish cd.settings.followUpCount = true →
      intish cd.settings.aiGeneratedQuestions = true →
      intish cd.settings.aiQuestions = true →
      deriveMaxFollowUps cd = specMaxFollowUpsAmended cd.settings)
    ∧ (∀ (db : DB) (u : User) (aid : String) (p : SubmitAnswerRequest)
        (now : Nat) (db1 : DB) (r : SubmitAnswerResponse) (att : TestAttempt),
      findAttempt db.attempts aid = some att →
      att.test_type ≠ "SJT" →
      submit_attempt_answer db u aid p now = .ok (db1, r) →
      r.max_follow_ups = 0) := by
  constructor
  · intro cd h1 h2 h3
    rcases hf : cd.settings.followUpCount with _ | n | s | b <;>
      rcases hg : cd.settings.aiGeneratedQuestions with _ | m | s2 | b2 <;>
        rcases hq2 : cd.settings.aiQuestions with _ | k | s3 | b3 <;>
          simp_all [deriveMaxFollowUps, specMaxFollowUpsAmended, intish,
            truthy, intOf, nonzeroInt, bne_iff_ne] <;>
          (try simp_all [pyInt?]) <;>
          (try split_ifs) <;>
          (try simp_all [pyInt?]) <;>
          omega
  · intro db u aid p now db1 r att hfind htt hok
    simp only [submit_attempt_answer, hfind] at hok
    by_cases hown : u.role = "candidate" ∧ att.user_id ≠ u.id
    · rw [if_pos hown] at hok
      exact absurd hok (by simp)
    · rw [if_neg hown] at hok
      by_cases hst : att.status ≠ "in_progress"
      · rw [if_pos hst] at hok
        exact absurd hok (by simp)
      · rw [if_neg hst] at hok
        rw [if_neg htt] at hok
        simp only [Except.ok.injEq, Prod.mk.injEq] at hok
        obtain ⟨-, hr⟩ := hok
        rw [← hr]

/-- C5: A follow-up submission whose base-question counter is already at or
above the quota is still stored (`stored = true`, with the answer appended),
the counter is not incremented, the reported sequence number is the
beyond-cap informational value `existing + 1` (unless the payload supplies
its own), and `can_generate_follow_up` is `false`. -/
theorem C5_followup_over_quota (db : DB) (u : User) (aid : String)
    (p : SubmitAnswerRequest) (now : Nat) (att : TestAttempt)
    (hfind : findAttempt db.attempts aid = some att)
    (hown : ¬(u.role = "candidate" ∧ att.user_id ≠ u.id))
    (hst : att.status = "in_progress")
    (hfu : p.is_follow_up = true)
    (hex : dictGetD att.attempt_metadata.follow_up_counts
        (toString (match p.base_question_index with
          | some b => b
          | Option.none => p.question_index)) 0
      ≥ (if att.test_type = "SJT" then
          deriveMaxFollowUps
            (match getConfig db u.tenant_id att.test_type with
             | some c => c.config_data
             | Option.none => {})
         else 0)) :
    ∃ db1 r, submit_attempt_answer db u aid p now = .ok (db1, r)
      ∧ r.stored = true
      ∧ r.total_follow_ups_for_base
          = dictGetD att.attempt_metadata.follow_up_counts
              (toString (match p.base_question_index with
                | some b => b
                | Option.none => p.question_index)) 0
      ∧ (findAttempt db1.attempts aid).map
          (fun a => a.attempt_metadata.follow_up_counts)
          = some att.attempt_metadata.follow_up_counts
      ∧ r.can_generate_follow_up = false
      ∧ r.answer.follow_up_sequence
          = (match p.follow_up_sequence with
             | some s => s
             | Option.none =>
               dictGetD att.attempt_metadata.follow_up_counts
                 (toString (match p.base_question_index with
                   | some b => b
                   | Option.none => p.question_index)) 0 + 1)
      ∧ (findAttempt db1.attempts aid).map
          (fun a => a.attempt_metadata.answers)
          = some (att.attempt_metadata.answers ++ [r.answer]) := by
  have hst' : ¬(att.status ≠ "in_progress") := by simp [hst]
  simp only [submit_attempt_answer, hfind, if_neg hown, if_neg hst', hfu,
    Bool.not_true, Bool.false_eq_true, if_false, if_pos hex]
  have hrem :
      (if att.test_type = "SJT" then
        max (0 : Int)
          ((if att.test_type = "SJT" then
              deriveMaxFollowUps
                (match getConfig db u.tenant_id att.test_type with
                 | some c => c.config_data
                 | Option.none => {})
            else (0 : Int))
            - dictGetD att.attempt_metadata.follow_up_counts
                (toString (match p.base_question_index with
                  | some b => b
                  | Option.none => p.question_index)) 0)
       else (0 : Int)) = 0 := by
    split
    · next hsjt =>
      rw [if_pos hsjt] at hex
      omega
    · rfl
  refine ⟨_, _, rfl, rfl, rfl, ?_, ?_, rfl, ?_⟩
  · rw [findAttempt_update, hfind]
    · rfl
    · exact fun a ha => ha
  · rw [hrem]
    simp
  · rw [findAttempt_update, hfind]
    · rfl
    · exact fun a ha => ha

/-- C9: A successful `complete_attempt` sets the attempt's status to
`'completed'` unconditionally, and the handler never reads the optional
`status` field of the request: the result is identical to the result for the
same request with `status` removed, so no input can produce a final status
other than `'completed'`. -/
theorem C9_complete_status_unconditional (db : DB) (current_user : User)
    (attempt_id : String) (payload : CompleteAttemptRequest) (now : Nat)
    (db1 : DB) (resp : CompleteAttemptResponse)
    (h : complete_attempt db current_user attempt_id payload now
      = .ok (db1, resp)) :
    resp.attempt.status = "completed"
    ∧ complete_attempt db current_user attempt_id payload now
      = complete_attempt db current_user attempt_id
          { payload with status := Option.none } now := by
  constructor
  · simp only [complete_attempt] at h
    split at h
    · exact absurd h (by simp)
    · split at h
      · exact absurd h (by simp)
      · split at h
        · exact absurd h (by simp)
        · simp only [Except.ok.injEq, Prod.mk.injEq] at h
          obtain ⟨-, hr⟩ := h
          subst hr
          split <;> rfl
  · rfl

/-! ## Witnesses -/

/-- Witness for C1 at a concrete database. -/
theorem C1_witness :
    getTestAvailability {} dbS candU "SJT" = .ok (dbS, respA)
    ∧ respA.can_start = (respA.assigned && respA.configured
        && decide (respA.attempts_used < respA.max_attempts)
        && !hasInProgress dbS.attempts candU.id respA.test_type)
    ∧ respA.attempts_used
        = (countMatching candU.id respA.test_type "completed" dbS.attempts
            : Int) := by
  have h : getTestAvailability {} dbS candU "SJT" = .ok (dbS, respA) := by
    decide
  obtain ⟨h1, h2, -⟩ := C1_can_start_formula {} dbS candU "SJT" dbS respA h
  exact ⟨h, h1, h2⟩

/-- Witness for C2: a concrete start step from an empty-attempts state. -/
theorem C2_witness : InvDB dbS ∧ InvDB dbS1 := by
  have hInv : InvDB dbS := fun uid tt => Nat.zero_le 1
  refine ⟨hInv, ?_⟩
  exact C2_single_in_progress_preserved dbS dbS1 hInv
    (@Step.start dbS {} candU { test_type := "SJT" } 7 dbS1 respS (by decide))

/-- Witness for C3 at the spec's example: restriction `["s2","s1"]` over
configuration order `[s1,s2,s3]` serves `[s1,s2]`. -/
theorem C3_witness :
    start_test_attempt {} db3 candU { test_type := "SJT" } 7
      = .ok (db3r, resp3)
    ∧ resp3.questions = [.sjtQ (scenOf "s1"), .sjtQ (scenOf "s2")] := by
  have h : start_test_attempt {} db3 candU { test_type := "SJT" } 7
      = .ok (db3r, resp3) := by decide
  have h3 := C3_sjt_restriction_filter {} db3 candU { test_type := "SJT" } 7
    asgRestr (cfgOf [scenOf "s1", scenOf "s2", scenOf "s3"] {})
    [.vstr "s2", .vstr "s1"] db3r resp3 rfl rfl (by decide) (by decide)
    (by decide) (by decide) (by decide) h
  exact ⟨h, h3.trans (by decide)⟩

/-- Witness for C4 at the spec's example: scenarios `[b,a,c]`,
`numberOfQuestions = 2`, no restriction, serves `[a,b]`. -/
theorem C4_witness :
    start_test_attempt {} db4 candU { test_type := "SJT" } 7
      = .ok (db4r, resp4)
    ∧ resp4.questions = [.sjtQ (scenOf "a"), .sjtQ (scenOf "b")] := by
  have h : start_test_attempt {} db4 candU { test_type := "SJT" } 7
      = .ok (db4r, resp4) := by decide
  have h4 := (C4_sjt_deterministic_truncation {} db4 candU
    { test_type := "SJT" } 7 asgPlain
    (cfgOf [scenOf "b", scenOf "a", scenOf "c"]
      { numberOfQuestions := .vint 2 })
    db4r resp4 rfl rfl (by decide) rfl (by decide) h).1 2 rfl (by decide)
    (by decide)
  exact ⟨h, h4.trans (by decide)⟩

/-- Witness for C5 at the spec's example: `followUpCount = 2`, counter
already at 2, third follow-up stored but not counted. -/
theorem C5_witness :
    submit_attempt_answer db5 candU "a1"
        { question_index := 0, answer_text := "f3", is_follow_up := true } 9
      = .ok (db5r, resp5r)
    ∧ resp5r.stored = true
    ∧ resp5r.can_generate_follow_up = false
    ∧ resp5r.total_follow_ups_for_base = 2 := by
  have h : submit_attempt_answer db5 candU "a1"
      { question_index := 0, answer_text := "f3", is_follow_up := true } 9
      = .ok (db5r, resp5r) := by decide
  obtain ⟨db1, r, hok, h1, -, -, h4, -, -⟩ :=
    C5_followup_over_quota db5 candU "a1"
      { question_index := 0, answer_text := "f3", is_follow_up := true } 9
      att5 (by decide) (by decide) (by decide) rfl (by decide)
  have he := hok.symm.trans h
  simp only [Except.ok.injEq, Prod.mk.injEq] at he
  obtain ⟨-, hr⟩ := he
  subst hr
  exact ⟨h, h1, h4, by decide⟩

/-- Witness for C6 (amended): a sample integer-valued settings object, and
a JDT submission reporting quota 0. -/
theorem C6_witness :
    deriveMaxFollowUps { settings := { aiQuestions := .vint 0 } }
      = specMaxFollowUpsAmended { aiQuestions := .vint 0 }
    ∧ submit_attempt_answer db6 candU "a1"
        { question_index := 0, answer_text := "x" } 9 = .ok (db6r, resp6r)
    ∧ resp6r.max_follow_ups = 0 := by
  have h6 : submit_attempt_answer db6 candU "a1"
      { question_index := 0, answer_text := "x" } 9
      = .ok (db6r, resp6r) := by decide
  refine ⟨C6_quota_amended.1 { settings := { aiQuestions := .vint 0 } }
    (by decide) (by decide) (by decide), h6, ?_⟩
  exact C6_quota_amended.2 db6 candU "a1"
    { question_index := 0, answer_text := "x" } 9 db6r resp6r att6
    (by decide) (by decide) h6

/-- Witness for C7: completing twice; the second call conflicts and the
first timestamp survives. -/
theorem C7_witness :
    complete_attempt db7 candU "a1" {} 5 = .ok (db7c, resp7)
    ∧ resp7.attempt.completed_at = some 5
    ∧ complete_attempt db7c candU "a1" {} 6
        = .error ⟨400, "Attempt already finalized"⟩ := by
  have h : complete_attempt db7 candU "a1" {} 5 = .ok (db7c, resp7) := by
    decide
  obtain ⟨hca, -, herr⟩ := C7_complete_requires_in_progress.2 db7 candU "a1"
    {} 5 db7c resp7 {} 6 h
  exact ⟨h, hca, herr⟩

/-- Witness for C8: first attempt gets number 1 and two remaining of three
allowed. -/
theorem C8_witness :
    getTestAvailability {} dbS candU "SJT" = .ok (dbS, respA)
    ∧ start_test_attempt {} dbS candU { test_type := "SJT" } 7
        = .ok (dbS1, respS)
    ∧ respS.attempt.attempt_number = 1
    ∧ respS.remaining_attempts = 2 := by
  obtain ⟨hn, hr⟩ := C8_attempt_number_and_remaining {} dbS candU
    { test_type := "SJT" } 7 dbS1 respS dbS respA (by decide) (by decide)
  exact ⟨by decide, by decide, hn.trans (by decide), hr.trans (by decide)⟩

/-- Witness for C9: a `'cancelled'` status in the payload still yields
`'completed'`. -/
theorem C9_witness :
    complete_attempt db7 candU "a1" { status := some "cancelled" } 5
      = .ok (db7c, resp7)
    ∧ resp7.attempt.status = "completed" := by
  have h : complete_attempt db7 candU "a1" { status := some "cancelled" } 5
      = .ok (db7c, resp7) := by decide
  exact ⟨h, (C9_complete_status_unconditional db7 candU "a1"
    { status := some "cancelled" } 5 db7c resp7 h).1⟩

/-- Witness for C10: a negative, out-of-range `question_index` is accepted
and stored as given. -/
theorem C10_witness :
    submit_attempt_answer db10 candU "a1"
        { question_index := -7, answer_text := "neg" } 9
      = .ok (db10r, resp10r)
    ∧ resp10r.stored = true
    ∧ resp10r.answer.base_question_index = -7 := by
  have h : submit_attempt_answer db10 candU "a1"
      { question_index := -7, answer_text := "neg" } 9
      = .ok (db10r, resp10r) := by decide
  obtain ⟨db1, r, hok, h1, h2, -, -, -⟩ :=
    C10_submit_no_bounds_check db10 candU "a1"
      { question_index := -7, answer_text := "neg" } 9 att10
      (by decide) (by decide) (by decide)
  have he := hok.symm.trans h
  simp only [Except.ok.injEq, Prod.mk.injEq] at he
  obtain ⟨-, hr⟩ := he
  subst hr
  exact ⟨h, h1, h2.trans (by decide)⟩

end Vibe
